import Mathlib

/-!
Verification development for the NYC taxi duration prediction and
monitoring repository. Pure fragments of the Python sources are embedded
as Lean functions; file-system effects are modelled by passing the file
content explicitly as an Option value (none means the file is absent).
-/

namespace NycTaxi

/-- Input payload for a duration prediction, mirroring the pydantic
RideRequest model shared by src/05-monitoring/app.py and
src/06-cicd/app.py. Location IDs are integers; trip_distance is a float,
modelled as a rational. -/
structure RideRequest where
  PULocationID : Int
  DOLocationID : Int
  trip_distance : Rat
deriving DecidableEq

/-- Pydantic field validation from the RideRequest model: PULocationID ge 1,
DOLocationID ge 1, trip_distance gt 0. FastAPI applies this before the
predict handler runs. -/
def validRide (r : RideRequest) : Bool :=
  decide (1 ≤ r.PULocationID) && decide (1 ≤ r.DOLocationID) &&
    decide (0 < r.trip_distance)

/-- Feature dictionary passed to the pipeline: keys PU_DO and trip_distance,
as built by both predict handlers and by prepare_features in training. -/
structure FeatureVector where
  PU_DO : String
  trip_distance : Rat
deriving DecidableEq

/-- Per-record zone pair key built by prepare_features in
src/05-monitoring/train.py line 56 and src/06-cicd/train.py line 41:
the pandas expression astype(str) + underscore + astype(str), which on an
integer column is the decimal rendering of each ID joined by an
underscore. -/
def trainZonePairKey (pu dropoff : Int) : String :=
  toString pu ++ "_" ++ toString dropoff

/-- Feature dictionary built by the predict handler in
src/05-monitoring/app.py lines 86 to 89 (identical construction in
src/06-cicd/app.py): an f-string rendering of the two IDs joined by an
underscore, and trip_distance passed through unchanged. -/
def predictFeatureDict (r : RideRequest) : FeatureVector :=
  { PU_DO := toString r.PULocationID ++ "_" ++ toString r.DOLocationID,
    trip_distance := r.trip_distance }

/-- Raw trip record as seen by load_data after the duration column is
computed: duration in minutes and trip_distance in miles, both floats,
modelled as rationals. -/
structure RawTrip where
  duration : Rat
  trip_distance : Rat
deriving DecidableEq

/-- Row filter of load_data in src/05-monitoring/train.py lines 41 to 42 and
src/06-cicd/train.py lines 32 to 33: two sequential pandas boolean-mask
filters, duration between 1 and 60 inclusive, then trip_distance strictly
between 0 and 100. -/
def durationDistanceFilter (trips : List RawTrip) : List RawTrip :=
  (trips.filter fun t => decide (1 ≤ t.duration ∧ t.duration ≤ 60)).filter
    fun t => decide (0 < t.trip_distance ∧ t.trip_distance < 100)

/-- Row selection of load_data: filter, then head limit. -/
def load_data (trips : List RawTrip) (limit : Nat) : List RawTrip :=
  (durationDistanceFilter trips).take limit

/-- Opaque fitted pipeline: maps a feature dictionary to a predicted
duration. The regressor internals are an external collaborator. -/
def ModelFn : Type := FeatureVector → Rat

/-- Response body of the predict endpoint. -/
structure PredictionResponse where
  duration : Rat
  model_version : String

/-- HTTP outcome of a request to the predict route: a 200 response, the
explicit HTTPException 500 raised by the handler when no model is loaded,
or the 422 rejection produced by the validation layer before the handler
runs. -/
inductive PredictResult where
  | ok (resp : PredictionResponse)
  | error500 (detail : String)
  | error422

/-- Response body of the health endpoint of src/06-cicd/app.py. -/
structure HealthResponse where
  status : String
  run_id : String
  model_loaded : Bool

/-- Python expression RUN_ID or "unknown": none and the empty string are
falsy, so both yield "unknown". -/
def runIdOrUnknown : Option String → String
  | none => "unknown"
  | some s => if s = "" then "unknown" else s

namespace Cicd

/-- Outcome of attempting to deserialize the model directory in
src/06-cicd/app.py: the directory may deserialize to a pipeline or the
load may raise (caught by the try block). -/
inductive LoadOutcome where
  | success (m : ModelFn)
  | failure

/-- Global state of the 06-cicd service after startup. -/
structure ServiceState where
  RUN_ID : Option String
  model : Option ModelFn

/-- Startup logic of the lifespan context manager in src/06-cicd/app.py
lines 47 to 73. The run_id file and the model directory are read
independently: a missing run_id file leaves RUN_ID at none, and a missing
model directory or a load exception leaves model at none; in every case
the function returns a state and the process keeps serving. -/
def lifespan (runIdFile : Option String) (modelLoad : Option LoadOutcome) :
    ServiceState :=
  { RUN_ID := runIdFile.map String.trim,
    model :=
      match modelLoad with
      | some (.success m) => some m
      | some .failure => none
      | none => none }

/-- Health endpoint of src/06-cicd/app.py lines 90 to 96. -/
def health (s : ServiceState) : HealthResponse :=
  { status := if s.model.isSome then "ok" else "degraded",
    run_id := runIdOrUnknown s.RUN_ID,
    model_loaded := s.model.isSome }

/-- Predict handler of src/06-cicd/app.py lines 99 to 112: raise
HTTPException 500 when no model is loaded, otherwise build the feature
dictionary and return the prediction with the run id as version. -/
def predict (s : ServiceState) (r : RideRequest) : PredictResult :=
  match s.model with
  | none => .error500 "Model not loaded. Check /health."
  | some m =>
    .ok { duration := m (predictFeatureDict r),
          model_version := runIdOrUnknown s.RUN_ID }

/-- Full request path of the predict route: pydantic validation first
(rejecting with 422 before the handler, hence before the feature encoding
or the model is touched), then the handler. -/
def handleRequest (s : ServiceState) (r : RideRequest) : PredictResult :=
  if validRide r then predict s r else .error422

end Cicd

/-- Row of the prediction log data/predictions.csv as written by
simulate.py: timestamp, zone pair key, distance, prediction and ground
truth duration; the last two may be missing (NaN) in a row. Timestamps
are modelled as integers, ordered as the parsed datetimes are. -/
structure LogRow where
  ts : Int
  PU_DO : String
  trip_distance : Rat
  prediction : Option Rat
  duration : Option Rat
deriving DecidableEq

namespace Monitor

/-- Error raised by monitor.py when the log file is absent. -/
inductive MonitorError where
  | fileNotFound
deriving DecidableEq

/-- Pandas dropna on the prediction and duration columns in monitor.py
line 29: keep the rows where both values are present. -/
def completeRows (rows : List LogRow) : List LogRow :=
  rows.filter fun r => r.prediction.isSome && r.duration.isSome

/-- Pandas sort_values on the ts column in monitor.py line 34: a stable
ascending sort by timestamp. -/
def sortByTs (rows : List LogRow) : List LogRow :=
  rows.mergeSort fun a b => decide (a.ts ≤ b.ts)

/-- Control flow of main in src/05-monitoring/monitor.py lines 26 to 37,
up to the reference and current windows handed to the report: raise if
the log file is absent, otherwise drop incomplete rows, sort by
timestamp, and split at the integer midpoint. There is no row-count
check. -/
def monitorMain (logFile : Option (List LogRow)) :
    Except MonitorError (List LogRow × List LogRow) :=
  match logFile with
  | none => .error .fileNotFound
  | some rows =>
    let complete := completeRows rows
    let sorted := sortByTs complete
    let midpoint := sorted.length / 2
    .ok (sorted.take midpoint, sorted.drop midpoint)

end Monitor

namespace Simulate

/-- Tail of main in src/05-monitoring/simulate.py lines 87 to 98, modelled
on the final content of the log file: when the collected result is empty
the function returns before any write, leaving the file as it was; when a
previous log exists the new rows are concatenated after it and the file
is overwritten; otherwise the new rows alone are written. -/
def writeLog (existing : Option (List LogRow)) (out : List LogRow) :
    Option (List LogRow) :=
  if out.isEmpty then existing
  else
    match existing with
    | some prev => some (prev ++ out)
    | none => some out

end Simulate

/-! Theorems for the claims. -/

/-- Claim C1: for every ride record with positive integer pickup and
dropoff zone IDs, the zone_pair_key built by the training feature
preparation is byte-identical to the PU_DO key built by the serving
predict handler for the same two IDs, whatever the trip distance. Both
reduce to the decimal rendering of the IDs joined by an underscore. -/
theorem zone_pair_key_parity (pu dropoff : Int) (d : Rat)
    (hpu : 1 ≤ pu) (hdo : 1 ≤ dropoff) :
    trainZonePairKey pu dropoff =
      (predictFeatureDict ⟨pu, dropoff, d⟩).PU_DO := rfl

/-- Witness for C1 at the documented example request 138, 236. -/
theorem zone_pair_key_parity_witness :
    trainZonePairKey 138 236 = (predictFeatureDict ⟨138, 236, 3⟩).PU_DO :=
  zone_pair_key_parity 138 236 3 (by decide) (by decide)

/-- Claim C8: the predict handler feature encoding is a pure function, so
two invocations on the same valid request yield the same zone pair key
and distance, and the encoded trip_distance is exactly the request field,
unchanged. -/
theorem encoder_deterministic (r : RideRequest) (h : validRide r = true) :
    predictFeatureDict r = predictFeatureDict r ∧
      (predictFeatureDict r).trip_distance = r.trip_distance :=
  ⟨rfl, rfl⟩

/-- Witness for C8 at the documented example request. -/
theorem encoder_deterministic_witness :
    (predictFeatureDict ⟨138, 236, 3⟩).trip_distance = 3 :=
  (encoder_deterministic ⟨138, 236, 3⟩ (by decide)).2

/-- Claim C6: validation passes exactly when both IDs are at least 1 and
the distance is positive, and a request violating any of the three
constraints is answered 422 regardless of the service state, so neither
the feature encoding nor the model is reached. -/
theorem validation_boundary (s : Cicd.ServiceState) (r : RideRequest) :
    (validRide r = true ↔
      (1 ≤ r.PULocationID ∧ 1 ≤ r.DOLocationID ∧ 0 < r.trip_distance)) ∧
    ((r.PULocationID < 1 ∨ r.DOLocationID < 1 ∨ r.trip_distance ≤ 0) →
      Cicd.handleRequest s r = .error422) := by
  constructor
  · simp [validRide, and_assoc]
  · intro hbad
    have hv : validRide r = false := by
      simp only [validRide, Bool.and_eq_false_iff, decide_eq_false_iff_not,
        not_le, not_lt]
      rcases hbad with h | h | h
      · exact Or.inl (Or.inl (by omega))
      · exact Or.inl (Or.inr (by omega))
      · exact Or.inr (by exact h)
    simp [Cicd.handleRequest, hv]

/-- Witness for C6: a request with pickup ID 0 is rejected with 422 even
when a model is loaded. -/
theorem validation_boundary_witness :
    Cicd.handleRequest ⟨some "abc", some fun _ => 10⟩ ⟨0, 236, 3⟩ =
      .error422 :=
  (validation_boundary ⟨some "abc", some fun _ => 10⟩ ⟨0, 236, 3⟩).2
    (Or.inl (by decide))

/-- Claim C2: when the model artifact fails to load at startup (directory
absent, or deserialization raised and was caught), the lifespan still
returns a state and the service keeps serving; in that state every health
call reports status degraded with model_loaded false, and every valid
predict call is answered with the explicit HTTPException 500 instead of
an unhandled crash. -/
theorem degraded_mode (runIdFile : Option String)
    (modelLoad : Option Cicd.LoadOutcome)
    (hfail : modelLoad = none ∨ modelLoad = some .failure) :
    (Cicd.health (Cicd.lifespan runIdFile modelLoad)).status = "degraded" ∧
    (Cicd.health (Cicd.lifespan runIdFile modelLoad)).model_loaded = false ∧
    ∀ r : RideRequest, validRide r = true →
      Cicd.handleRequest (Cicd.lifespan runIdFile modelLoad) r =
        .error500 "Model not loaded. Check /health." := by
  have hm : (Cicd.lifespan runIdFile modelLoad).model = none := by
    rcases hfail with h | h <;> simp [Cicd.lifespan, h]
  refine ⟨?_, ?_, ?_⟩
  · simp [Cicd.health, hm]
  · simp [Cicd.health, hm]
  · intro r hr
    simp [Cicd.handleRequest, hr, Cicd.predict, hm]

/-- Witness for C2: with no model directory, health is degraded and a
valid example request receives the 500 error. -/
theorem degraded_mode_witness :
    (Cicd.health (Cicd.lifespan none none)).status = "degraded" ∧
    Cicd.handleRequest (Cicd.lifespan none none) ⟨138, 236, 3⟩ =
      .error500 "Model not loaded. Check /health." :=
  ⟨(degraded_mode none none (Or.inl rfl)).1,
   (degraded_mode none none (Or.inl rfl)).2.2 ⟨138, 236, 3⟩ (by decide)⟩

/-- Claim C10: reading run_id.txt and loading the model are independent
startup steps of the 06-cicd service. With the model present but
run_id.txt absent, predict succeeds and reports model_version unknown,
and health reports status ok together with run_id unknown; and in every
startup state, health reports ok exactly when the model object is
loaded. -/
theorem runid_model_independent (m : ModelFn) (r : RideRequest)
    (hr : validRide r = true) :
    Cicd.handleRequest (Cicd.lifespan none (some (.success m))) r =
      .ok { duration := m (predictFeatureDict r), model_version := "unknown" } ∧
    Cicd.health (Cicd.lifespan none (some (.success m))) =
      { status := "ok", run_id := "unknown", model_loaded := true } ∧
    ∀ (runIdFile : Option String) (modelLoad : Option Cicd.LoadOutcome),
      ((Cicd.health (Cicd.lifespan runIdFile modelLoad)).status = "ok" ↔
        (Cicd.lifespan runIdFile modelLoad).model.isSome = true) := by
  refine ⟨?_, ?_, ?_⟩
  · simp [Cicd.handleRequest, hr, Cicd.predict, Cicd.lifespan, runIdOrUnknown]
  · simp [Cicd.health, Cicd.lifespan, runIdOrUnknown]
  · intro runIdFile modelLoad
    by_cases hm : (Cicd.lifespan runIdFile modelLoad).model.isSome
    · simp [Cicd.health, hm]
    · simp [Cicd.health, hm]

/-- Witness for C10 with a constant pipeline and the example request. -/
theorem runid_model_independent_witness :
    Cicd.health (Cicd.lifespan none (some (.success fun _ => 10))) =
      { status := "ok", run_id := "unknown", model_loaded := true } :=
  (runid_model_independent (fun _ => 10) ⟨138, 236, 3⟩ (by decide)).2.1

/-- Counterexample to claim C3: a log file that exists but whose single
row has neither prediction nor ground truth yields zero complete rows,
yet the monitor does not fail: it proceeds to the split with two empty
windows instead of raising an EmptyLog error. -/
theorem monitor_no_emptylog_check :
    Monitor.monitorMain (some [⟨0, "1_1", 1, none, none⟩]) = .ok ([], []) := by
  simp [Monitor.monitorMain, Monitor.completeRows, Monitor.sortByTs]

/-- Amended claim C3: the monitor raises its file-not-found error exactly
when the log file is absent; whenever the file exists it proceeds to the
drift split on the complete rows, with no check on their count. -/
theorem monitor_error_iff_absent (logFile : Option (List LogRow)) :
    Monitor.monitorMain logFile = .error .fileNotFound ↔ logFile = none := by
  cases logFile <;> simp [Monitor.monitorMain]

/-- Counterexample to claim C4: records with duration exactly 1 and
exactly 60 minutes are kept by the load_data filter, not discarded. -/
theorem outlier_filter_keeps_boundary :
    durationDistanceFilter [⟨1, 5⟩, ⟨60, 5⟩] = [⟨1, 5⟩, ⟨60, 5⟩] := by
  decide

/-- Amended claim C4: load_data keeps exactly the records whose duration
lies between 1 and 60 minutes inclusive and whose trip distance is
strictly between 0 and 100 miles; every other record is discarded
without error. -/
theorem outlier_filter_bounds (trips : List RawTrip) (t : RawTrip) :
    t ∈ durationDistanceFilter trips ↔
      t ∈ trips ∧ (1 ≤ t.duration ∧ t.duration ≤ 60) ∧
        (0 < t.trip_distance ∧ t.trip_distance < 100) := by
  simp only [durationDistanceFilter, List.mem_filter, decide_eq_true_eq]
  tauto

/-- Claim C5: on a log whose rows are all complete, the monitor sorts by
timestamp and returns exactly the first floor N over 2 rows as the
reference window and the remaining rows as the current window; the two
windows concatenate back to the sorted log (so they are disjoint as
segments and cover it), and the computation is a pure function, so a
re-run on the unchanged log gives the identical split. -/
theorem drift_split (rows : List LogRow)
    (hc : ∀ r ∈ rows, (r.prediction.isSome && r.duration.isSome) = true)
    (hN : 2 ≤ rows.length) :
    Monitor.monitorMain (some rows) =
      .ok ((Monitor.sortByTs rows).take (rows.length / 2),
           (Monitor.sortByTs rows).drop (rows.length / 2)) ∧
    ((Monitor.sortByTs rows).take (rows.length / 2)).length
        = rows.length / 2 ∧
    ((Monitor.sortByTs rows).drop (rows.length / 2)).length
        = rows.length - rows.length / 2 ∧
    (Monitor.sortByTs rows).take (rows.length / 2)
        ++ (Monitor.sortByTs rows).drop (rows.length / 2)
      = Monitor.sortByTs rows ∧
    Monitor.monitorMain (some rows) = Monitor.monitorMain (some rows) := by
  have hcomplete : Monitor.completeRows rows = rows :=
    List.filter_eq_self.mpr hc
  have hlen : (Monitor.sortByTs rows).length = rows.length := by
    simp [Monitor.sortByTs, List.length_mergeSort]
  refine ⟨?_, ?_, ?_, List.take_append_drop _ _, rfl⟩
  · simp [Monitor.monitorMain, hcomplete, hlen]
  · rw [List.length_take, hlen, Nat.min_eq_left (Nat.div_le_self _ _)]
  · rw [List.length_drop, hlen]

/-- Witness for C5 on a concrete two-row log. -/
theorem drift_split_witness :
    Monitor.monitorMain
        (some [⟨1, "1_2", 2, some 5, some 6⟩, ⟨0, "3_4", 1, some 7, some 8⟩]) =
      .ok ((Monitor.sortByTs
              [⟨1, "1_2", 2, some 5, some 6⟩,
               ⟨0, "3_4", 1, some 7, some 8⟩]).take 1,
           (Monitor.sortByTs
              [⟨1, "1_2", 2, some 5, some 6⟩,
               ⟨0, "3_4", 1, some 7, some 8⟩]).drop 1) :=
  (drift_split
    [⟨1, "1_2", 2, some 5, some 6⟩, ⟨0, "3_4", 1, some 7, some 8⟩]
    (by decide) (by decide)).1

/-- Claim C7: a single append of a non-empty batch of new entries writes
back exactly the previous rows followed by the new rows, in order; with
no prior log file, exactly the new rows. -/
theorem logger_append (prev out : List LogRow) (h : out ≠ []) :
    Simulate.writeLog (some prev) out = some (prev ++ out) ∧
    Simulate.writeLog none out = some out := by
  have he : out.isEmpty = false := by
    cases out with
    | nil => exact absurd rfl h
    | cons a t => rfl
  constructor <;> simp [Simulate.writeLog, he]

/-- Witness for C7 on concrete one-row logs. -/
theorem logger_append_witness :
    Simulate.writeLog (some [⟨0, "1_2", 2, some 5, some 6⟩])
        [⟨1, "3_4", 1, some 7, some 8⟩] =
      some ([⟨0, "1_2", 2, some 5, some 6⟩] ++
        [⟨1, "3_4", 1, some 7, some 8⟩]) :=
  (logger_append [⟨0, "1_2", 2, some 5, some 6⟩]
    [⟨1, "3_4", 1, some 7, some 8⟩] (List.cons_ne_nil _ _)).1

/-- Claim C9: when the simulator records no successful prediction, main
returns before any write, so the log file content is left exactly as it
was; in particular an absent file stays absent and an existing file is
unchanged byte for byte. -/
theorem empty_simulation_frame (existing : Option (List LogRow)) :
    Simulate.writeLog existing [] = existing := rfl

end NycTaxi
